import Mathlib

/-!
Verification of `src/dma_memcpy.c`: a non-blocking, interrupt-driven,
chunked DMA memory-copy driver for a Cortex-M4F uDMA controller.

The module is embedded shallowly: the nine `static` variables of the C
file become the fields of `DmaState`; the opaque hardware operations
(`ROM_uDMAChannelTransferSet`, `ROM_uDMAChannelEnable`, ...) and the user
callback invocation are recorded as an `Event` trace; interrupt handlers
take the value the hardware would report (`ui32Mode`, `ui32Status`) as an
explicit argument.  Values of C type `uint32_t` are modelled as `Nat`
reduced modulo 2^32 at every store that can overflow; the C `-=` on
`uint32_t` is modelled by the two's-complement `sub32` so that absence of
wrap-around is a theorem, not a modelling assumption.  Pointers
(`uint32_t *`) are modelled as word indices; `+= len` advances by `len`
words, exactly as the C pointer arithmetic does.
-/

namespace DmaMemcpy

/-- Constant from `dma_memcpy.c`: CM4F size limit for one uDMA transfer. -/
def MAX_XFER_LEN : Nat := 1024

/-- Platform constant (`driverlib/udma.h`): channel mode after a clean stop. -/
def UDMA_MODE_STOP : Nat := 0

/-- Platform constant (`driverlib/udma.h`): auto-request transfer mode. -/
def UDMA_MODE_AUTO : Nat := 2

/-- Platform constant (`driverlib/udma.h`): primary control-structure select. -/
def UDMA_PRI_SELECT : Nat := 0

/-- Platform constant (`driverlib/udma.h`). -/
def UDMA_ATTR_USEBURST : Nat := 1

/-- Platform constant (`driverlib/udma.h`). -/
def UDMA_ATTR_ALTSELECT : Nat := 2

/-- Platform constant (`driverlib/udma.h`). -/
def UDMA_ATTR_HIGH_PRIORITY : Nat := 4

/-- Platform constant (`driverlib/udma.h`). -/
def UDMA_ATTR_REQMASK : Nat := 8

/-- Platform constant (`driverlib/udma.h`): 32-bit item size. -/
def UDMA_SIZE_32 : Nat := 0x22000000

/-- Platform constant (`driverlib/udma.h`): 32-bit source increment. -/
def UDMA_SRC_INC_32 : Nat := 0x08000000

/-- Platform constant (`driverlib/udma.h`): 32-bit destination increment. -/
def UDMA_DST_INC_32 : Nat := 0x80000000

/-- Platform constant (`driverlib/udma.h`): arbitration size 8. -/
def UDMA_ARB_8 : Nat := 0xC000

/-- Reduction modulo 2^32, applied at every store into a `uint32_t`. -/
def mod32 (n : Nat) : Nat := n % 4294967296

/-- Two's-complement subtraction of `uint32_t` values: the value the C
expression `a - b` yields on operands already reduced below 2^32. -/
def sub32 (a b : Nat) : Nat := (a + 4294967296 - b) % 4294967296

/-- The nine `static` variables of `dma_memcpy.c`.  `udma_callback_ptr` is a
function pointer; it is modelled by its address, with `0` standing for
`NULL`.  `udma_xfer_src` and `udma_xfer_dst` are `uint32_t *`, modelled as
word indices. -/
structure DmaState where
  udma_error_cnt : Nat
  udma_xfer_fail_cnt : Nat
  udma_xfer_succ_cnt : Nat
  udma_xfer_len : Nat
  udma_channel_lock : Nat
  udma_is_initialized : Nat
  udma_channel : Nat
  udma_xfer_src : Nat
  udma_xfer_dst : Nat
  udma_callback_ptr : Nat
deriving Repr, DecidableEq

/-- State of the C statics at program start (all initialised to 0 / NULL). -/
def initState : DmaState :=
  { udma_error_cnt := 0, udma_xfer_fail_cnt := 0, udma_xfer_succ_cnt := 0
    udma_xfer_len := 0, udma_channel_lock := 0, udma_is_initialized := 0
    udma_channel := 0, udma_xfer_src := 0, udma_xfer_dst := 0
    udma_callback_ptr := 0 }

/-- Observable actions of the module: calls into the opaque hardware layer
and invocations of the user callback, in program order. -/
inductive Event where
  | channelAttributeDisable (chan attrs : Nat)
  | channelControlSet (chan control : Nat)
  | channelTransferSet (chanArg mode src dst len : Nat)
  | channelEnable (chan : Nat)
  | channelRequest (chan : Nat)
  | errorStatusClear
  | callbackInvoke (cb code : Nat)
deriving Repr, DecidableEq

/-- Embedding of `init_dma_memcpy(chan)`: disables the channel attributes,
sets the channel control word, marks the module initialised, returns 0. -/
def init_dma_memcpy (chan : Nat) (s : DmaState) : Nat × DmaState × List Event :=
  (0,
   { s with udma_is_initialized := 1 },
   [Event.channelAttributeDisable chan
      (UDMA_ATTR_USEBURST ||| UDMA_ATTR_ALTSELECT |||
        (UDMA_ATTR_HIGH_PRIORITY ||| UDMA_ATTR_REQMASK)),
    Event.channelControlSet chan
      (UDMA_SIZE_32 ||| UDMA_SRC_INC_32 ||| UDMA_DST_INC_32 ||| UDMA_ARB_8)])

/-- Embedding of `dma_memcpy(dst, src, len, chan, cb)`.  The
compare-and-swap on `udma_channel_lock` succeeds exactly when the lock is
0; otherwise the call returns 1 with no state change and no hardware
action.  On success it lazily initialises, records the channel, stores the
callback only when `cb` is non-NULL, stores `len` (a `size_t`, truncated
into the `uint32_t` `udma_xfer_len`), arms the first chunk of
`min(len, MAX_XFER_LEN)` words on `chan | UDMA_PRI_SELECT` in auto mode,
pre-advances the cursors, enables and requests the channel, and returns 0. -/
def dma_memcpy (dst src len chan cb : Nat) (s : DmaState) :
    Nat × DmaState × List Event :=
  if s.udma_channel_lock ≠ 0 then
    (1, s, [])
  else
    let s0 := { s with udma_channel_lock := 1 }
    let si :=
      if s0.udma_is_initialized = 0 then
        ((init_dma_memcpy chan s0).2.1, (init_dma_memcpy chan s0).2.2)
      else (s0, [])
    let s1 := { si.1 with udma_channel := chan }
    let s2 :=
      if cb ≠ 0 then { s1 with udma_callback_ptr := cb } else s1
    let s3 := { s2 with udma_xfer_len := mod32 len }
    let chunk := min s3.udma_xfer_len MAX_XFER_LEN
    let s4 := { s3 with udma_xfer_len := sub32 s3.udma_xfer_len chunk }
    let s5 := { s4 with udma_xfer_src := src + chunk,
                        udma_xfer_dst := dst + chunk }
    (0, s5,
     si.2 ++
       [Event.channelTransferSet (chan ||| UDMA_PRI_SELECT) UDMA_MODE_AUTO
          src dst chunk,
        Event.channelEnable chan,
        Event.channelRequest chan])

/-- Embedding of `uDMAIntHandler()`, the transfer-completion interrupt.
`ui32Mode` is the value `ROM_uDMAChannelModeGet(udma_channel)` reports.
On a clean stop it counts a success and either fires the callback with
code 0 (callback present and no words remaining) or arms the next chunk of
`min(udma_xfer_len, MAX_XFER_LEN)` words on the stored channel; on an
abnormal mode it counts a failure and fires the callback with code 1 if
present.  The lock is released unconditionally at exit.  (The C handler's
`static uint32_t len` is written before every read, so it is modelled as
the local `chunk`.) -/
def uDMAIntHandler (ui32Mode : Nat) (s : DmaState) : DmaState × List Event :=
  if ui32Mode = UDMA_MODE_STOP then
    let s0 := { s with udma_xfer_succ_cnt := mod32 (s.udma_xfer_succ_cnt + 1) }
    if s0.udma_callback_ptr ≠ 0 ∧ s0.udma_xfer_len = 0 then
      ({ s0 with udma_callback_ptr := 0, udma_channel_lock := 0 },
       [Event.callbackInvoke s0.udma_callback_ptr 0])
    else
      let chunk := min s0.udma_xfer_len MAX_XFER_LEN
      ({ s0 with udma_xfer_len := sub32 s0.udma_xfer_len chunk,
                 udma_xfer_src := s0.udma_xfer_src + chunk,
                 udma_xfer_dst := s0.udma_xfer_dst + chunk,
                 udma_channel_lock := 0 },
       [Event.channelTransferSet s0.udma_channel UDMA_MODE_AUTO
          s0.udma_xfer_src s0.udma_xfer_dst chunk,
        Event.channelEnable s0.udma_channel,
        Event.channelRequest s0.udma_channel])
  else
    let s0 :=
      { s with udma_xfer_fail_cnt := mod32 (s.udma_xfer_fail_cnt + 1) }
    if s0.udma_callback_ptr ≠ 0 then
      ({ s0 with udma_callback_ptr := 0, udma_channel_lock := 0 },
       [Event.callbackInvoke s0.udma_callback_ptr 1])
    else
      ({ s0 with udma_channel_lock := 0 }, [])

/-- Embedding of `uDMAErrorHandler()`, the controller-error interrupt.
`ui32Status` is the value `ROM_uDMAErrorStatusGet()` reports.  When it is
non-zero the handler clears the status, counts an error and fires the
callback with code 2 if present; in every case it releases the lock. -/
def uDMAErrorHandler (ui32Status : Nat) (s : DmaState) : DmaState × List Event :=
  if ui32Status ≠ 0 then
    let s0 := { s with udma_error_cnt := mod32 (s.udma_error_cnt + 1) }
    if s0.udma_callback_ptr ≠ 0 then
      ({ s0 with udma_callback_ptr := 0, udma_channel_lock := 0 },
       [Event.errorStatusClear,
        Event.callbackInvoke s0.udma_callback_ptr 2])
    else
      ({ s0 with udma_channel_lock := 0 }, [Event.errorStatusClear])
  else
    ({ s with udma_channel_lock := 0 }, [])

/-- Sizes of the `channelTransferSet` events of a trace, in order: the
chunk lengths armed on the hardware. -/
def armSizes (t : List Event) : List Nat :=
  t.filterMap fun e =>
    match e with
    | Event.channelTransferSet _ _ _ _ n => some n
    | _ => none

/-- Channel argument and mode of each `channelTransferSet` event of a
trace, in order. -/
def armTargets (t : List Event) : List (Nat × Nat) :=
  t.filterMap fun e =>
    match e with
    | Event.channelTransferSet c m _ _ _ => some (c, m)
    | _ => none

/-- Callback invocations of a trace (callback address, status code), in
order. -/
def callbackEvents (t : List Event) : List (Nat × Nat) :=
  t.filterMap fun e =>
    match e with
    | Event.callbackInvoke cb code => some (cb, code)
    | _ => none

/-- Number of chunks needed for `L` words with cap `MAX_XFER_LEN`:
the ceiling of `L / 1024`. -/
def numChunks (L : Nat) : Nat := (L + MAX_XFER_LEN - 1) / MAX_XFER_LEN

/-- Chunk sizes for a transfer of `L` words: repeatedly take
`min(remaining, MAX_XFER_LEN)` until nothing remains. -/
def chunkSizes (L : Nat) : List Nat :=
  if _h : L = 0 then []
  else min L MAX_XFER_LEN :: chunkSizes (L - min L MAX_XFER_LEN)
termination_by L
decreasing_by
  simp only [MAX_XFER_LEN]
  omega

/-- Run of `n` consecutive clean-stop completion interrupts, with the
states threaded through and the traces concatenated. -/
def iterateHandler : Nat → DmaState → DmaState × List Event
  | 0, s => (s, [])
  | n + 1, s =>
    let r1 := uDMAIntHandler UDMA_MODE_STOP s
    let r2 := iterateHandler n r1.1
    (r2.1, r1.2 ++ r2.2)

/-- One asynchronous hardware stimulus: a completion interrupt reporting
mode `m`, or an error interrupt reporting status `e`. -/
inductive HCall where
  | intr (m : Nat)
  | err (e : Nat)
deriving Repr, DecidableEq

/-- Dispatch one stimulus to the corresponding handler. -/
def handlerStep : HCall → DmaState → DmaState × List Event
  | HCall.intr m, s => uDMAIntHandler m s
  | HCall.err e, s => uDMAErrorHandler e s

/-- Run an arbitrary sequence of handler stimuli. -/
def runCalls : List HCall → DmaState → DmaState × List Event
  | [], s => (s, [])
  | c :: cs, s =>
    let r1 := handlerStep c s
    let r2 := runCalls cs r1.1
    (r2.1, r1.2 ++ r2.2)

/-- One whole session against cooperating hardware: a `dma_memcpy` call
followed by `k` clean-stop completion interrupts; yields the return code of
the call, the final state, and the whole trace. -/
def sessionRun (dst src L chan cb : Nat) (s : DmaState) (k : Nat) :
    Nat × DmaState × List Event :=
  let r := dma_memcpy dst src L chan cb s
  let r2 := iterateHandler k r.2.1
  (r.1, r2.1, r.2.2 ++ r2.2)

/-- A session continued by one further handler stimulus `c` (used to place a
failed completion or a controller error after `k` clean completions). -/
def sessionRunThen (dst src L chan cb : Nat) (s : DmaState) (k : Nat)
    (c : HCall) : Nat × DmaState × List Event :=
  let r := sessionRun dst src L chan cb s k
  let r3 := handlerStep c r.2.1
  (r.1, r3.1, r.2.2 ++ r3.2)

/-- State equal to `s` except that the three diagnostic counters are
replaced by `e`, `f`, `c`. -/
def withCounters (s : DmaState) (e f c : Nat) : DmaState :=
  { s with udma_error_cnt := e, udma_xfer_fail_cnt := f,
           udma_xfer_succ_cnt := c }

/-!  Arithmetic facts about the 32-bit helpers and the chunk count. -/

theorem mod32_lt (n : Nat) : mod32 n < 4294967296 := by
  simp only [mod32]
  omega

theorem mod32_eq_of_lt {n : Nat} (h : n < 4294967296) : mod32 n = n := by
  simp only [mod32]
  omega

theorem sub32_eq_sub {a b : Nat} (hba : b ≤ a) (ha : a < 4294967296) :
    sub32 a b = a - b := by
  simp only [sub32]
  omega

theorem numChunks_zero : numChunks 0 = 0 := rfl

theorem numChunks_pos {L : Nat} (h : 1 ≤ L) : 1 ≤ numChunks L := by
  simp only [numChunks, MAX_XFER_LEN]
  omega

theorem numChunks_eq_zero {L : Nat} (h : numChunks L = 0) : L = 0 := by
  simp only [numChunks, MAX_XFER_LEN] at h
  omega

theorem numChunks_step {L : Nat} (h : 1 ≤ L) :
    numChunks (L - min L MAX_XFER_LEN) = numChunks L - 1 := by
  simp only [numChunks, MAX_XFER_LEN]
  omega

theorem chunkSizes_nil : chunkSizes 0 = [] := by
  rw [chunkSizes]
  simp

theorem chunkSizes_cons {L : Nat} (h : L ≠ 0) :
    chunkSizes L = min L MAX_XFER_LEN :: chunkSizes (L - min L MAX_XFER_LEN) := by
  rw [chunkSizes]
  simp [h]

theorem chunkSizes_length (L : Nat) : (chunkSizes L).length = numChunks L := by
  induction L using Nat.strong_induction_on with
  | _ L ih =>
    by_cases h : L = 0
    · subst h
      rw [chunkSizes_nil, numChunks_zero]
      rfl
    · rw [chunkSizes_cons h, List.length_cons,
        ih (L - min L MAX_XFER_LEN) (by simp only [MAX_XFER_LEN]; omega)]
      simp only [numChunks, MAX_XFER_LEN]
      omega

/-!  Closed forms for the four operations, one per control-flow branch. -/

theorem uDMAIntHandler_stop_final {s : DmaState}
    (h1 : s.udma_callback_ptr ≠ 0) (h2 : s.udma_xfer_len = 0) :
    uDMAIntHandler UDMA_MODE_STOP s =
      ({ s with udma_xfer_succ_cnt := mod32 (s.udma_xfer_succ_cnt + 1),
                udma_callback_ptr := 0, udma_channel_lock := 0 },
       [Event.callbackInvoke s.udma_callback_ptr 0]) := by
  obtain ⟨ec, fc, sc, xl, lk, ini, ch, sp, dp, cb⟩ := s
  simp only at h1 h2
  simp [uDMAIntHandler, h1, h2]

theorem uDMAIntHandler_stop_rearm {s : DmaState}
    (h : ¬(s.udma_callback_ptr ≠ 0 ∧ s.udma_xfer_len = 0)) :
    uDMAIntHandler UDMA_MODE_STOP s =
      ({ s with udma_xfer_succ_cnt := mod32 (s.udma_xfer_succ_cnt + 1),
                udma_xfer_len :=
                  sub32 s.udma_xfer_len (min s.udma_xfer_len MAX_XFER_LEN),
                udma_xfer_src :=
                  s.udma_xfer_src + min s.udma_xfer_len MAX_XFER_LEN,
                udma_xfer_dst :=
                  s.udma_xfer_dst + min s.udma_xfer_len MAX_XFER_LEN,
                udma_channel_lock := 0 },
       [Event.channelTransferSet s.udma_channel UDMA_MODE_AUTO s.udma_xfer_src
          s.udma_xfer_dst (min s.udma_xfer_len MAX_XFER_LEN),
        Event.channelEnable s.udma_channel,
        Event.channelRequest s.udma_channel]) := by
  obtain ⟨ec, fc, sc, xl, lk, ini, ch, sp, dp, cb⟩ := s
  simp only at h
  simp [uDMAIntHandler, h]

theorem uDMAIntHandler_fail {m : Nat} (hm : m ≠ UDMA_MODE_STOP) {s : DmaState}
    (hcb : s.udma_callback_ptr ≠ 0) :
    uDMAIntHandler m s =
      ({ s with udma_xfer_fail_cnt := mod32 (s.udma_xfer_fail_cnt + 1),
                udma_callback_ptr := 0, udma_channel_lock := 0 },
       [Event.callbackInvoke s.udma_callback_ptr 1]) := by
  obtain ⟨ec, fc, sc, xl, lk, ini, ch, sp, dp, cb⟩ := s
  simp only at hcb
  simp [uDMAIntHandler, hm, hcb]

theorem uDMAErrorHandler_pend {e : Nat} (he : e ≠ 0) {s : DmaState}
    (hcb : s.udma_callback_ptr ≠ 0) :
    uDMAErrorHandler e s =
      ({ s with udma_error_cnt := mod32 (s.udma_error_cnt + 1),
                udma_callback_ptr := 0, udma_channel_lock := 0 },
       [Event.errorStatusClear,
        Event.callbackInvoke s.udma_callback_ptr 2]) := by
  obtain ⟨ec, fc, sc, xl, lk, ini, ch, sp, dp, cb⟩ := s
  simp only at hcb
  simp [uDMAErrorHandler, he, hcb]

theorem dma_memcpy_spec (dst src len chan cb : Nat) {s : DmaState}
    (h : s.udma_channel_lock = 0) :
    dma_memcpy dst src len chan cb s =
      (0,
       { s with udma_channel_lock := 1,
                udma_is_initialized :=
                  if s.udma_is_initialized = 0 then 1 else s.udma_is_initialized,
                udma_channel := chan,
                udma_callback_ptr :=
                  if cb ≠ 0 then cb else s.udma_callback_ptr,
                udma_xfer_len :=
                  sub32 (mod32 len) (min (mod32 len) MAX_XFER_LEN),
                udma_xfer_src := src + min (mod32 len) MAX_XFER_LEN,
                udma_xfer_dst := dst + min (mod32 len) MAX_XFER_LEN },
       (if s.udma_is_initialized = 0 then
          [Event.channelAttributeDisable chan
             (UDMA_ATTR_USEBURST ||| UDMA_ATTR_ALTSELECT |||
               (UDMA_ATTR_HIGH_PRIORITY ||| UDMA_ATTR_REQMASK)),
           Event.channelControlSet chan
             (UDMA_SIZE_32 ||| UDMA_SRC_INC_32 ||| UDMA_DST_INC_32 |||
               UDMA_ARB_8)]
        else []) ++
         [Event.channelTransferSet (chan ||| UDMA_PRI_SELECT) UDMA_MODE_AUTO
            src dst (min (mod32 len) MAX_XFER_LEN),
          Event.channelEnable chan,
          Event.channelRequest chan]) := by
  obtain ⟨ec, fc, sc, xl, lk, ini, ch, sp, dp, cbp⟩ := s
  simp only at h
  subst h
  by_cases hi : ini = 0 <;> by_cases hcb : cb = 0 <;>
    simp [dma_memcpy, init_dma_memcpy, hi, hcb]

/-!  Trace bookkeeping. -/

theorem armSizes_append (a b : List Event) :
    armSizes (a ++ b) = armSizes a ++ armSizes b := by
  simp [armSizes]

theorem callbackEvents_append (a b : List Event) :
    callbackEvents (a ++ b) = callbackEvents a ++ callbackEvents b := by
  simp [callbackEvents]

theorem armTargets_append (a b : List Event) :
    armTargets (a ++ b) = armTargets a ++ armTargets b := by
  simp [armTargets]

/-!  Behaviour of a run of clean-stop completions while a callback is
pending.  `iterate_success` covers the run that finishes the transfer and
fires the callback; `iterate_clean` covers any shorter run, during which no
callback fires and the callback pointer survives. -/

theorem iterateHandler_zero_state (s : DmaState) :
    (iterateHandler 0 s).1 = s := rfl

theorem iterateHandler_zero_trace (s : DmaState) :
    (iterateHandler 0 s).2 = [] := rfl

theorem iterateHandler_succ_state (n : Nat) (s : DmaState) :
    (iterateHandler (n + 1) s).1 =
      (iterateHandler n (uDMAIntHandler UDMA_MODE_STOP s).1).1 := rfl

theorem iterateHandler_succ_trace (n : Nat) (s : DmaState) :
    (iterateHandler (n + 1) s).2 =
      (uDMAIntHandler UDMA_MODE_STOP s).2 ++
        (iterateHandler n (uDMAIntHandler UDMA_MODE_STOP s).1).2 := rfl

theorem iterate_success (n : Nat) :
    ∀ s : DmaState, s.udma_callback_ptr ≠ 0 →
      s.udma_xfer_len < 4294967296 →
      numChunks s.udma_xfer_len = n →
      armSizes (iterateHandler (n + 1) s).2 = chunkSizes s.udma_xfer_len ∧
      (∃ t0, (iterateHandler (n + 1) s).2 =
          t0 ++ [Event.callbackInvoke s.udma_callback_ptr 0] ∧
          callbackEvents t0 = []) ∧
      (iterateHandler (n + 1) s).1.udma_callback_ptr = 0 ∧
      (iterateHandler (n + 1) s).1.udma_channel_lock = 0 := by
  induction n with
  | zero =>
    intro s hcb hlt hn
    have hlen : s.udma_xfer_len = 0 := numChunks_eq_zero hn
    have etr : (uDMAIntHandler UDMA_MODE_STOP s).2 =
        [Event.callbackInvoke s.udma_callback_ptr 0] := by
      rw [uDMAIntHandler_stop_final hcb hlen]
    have ecb : (uDMAIntHandler UDMA_MODE_STOP s).1.udma_callback_ptr = 0 := by
      rw [uDMAIntHandler_stop_final hcb hlen]
    have elk : (uDMAIntHandler UDMA_MODE_STOP s).1.udma_channel_lock = 0 := by
      rw [uDMAIntHandler_stop_final hcb hlen]
    refine ⟨?_, ⟨[], ?_, rfl⟩, ?_, ?_⟩
    · rw [iterateHandler_succ_trace, iterateHandler_zero_trace, etr, hlen,
        chunkSizes_nil]
      rfl
    · rw [iterateHandler_succ_trace, iterateHandler_zero_trace, etr]
      rfl
    · rw [iterateHandler_succ_state, iterateHandler_zero_state, ecb]
    · rw [iterateHandler_succ_state, iterateHandler_zero_state, elk]
  | succ n ih =>
    intro s hcb hlt hn
    have hlen : s.udma_xfer_len ≠ 0 := by
      intro h0
      rw [h0, numChunks_zero] at hn
      omega
    have hre : ¬(s.udma_callback_ptr ≠ 0 ∧ s.udma_xfer_len = 0) := by
      intro hc
      exact hlen hc.2
    have hchunk : min s.udma_xfer_len MAX_XFER_LEN ≤ s.udma_xfer_len :=
      Nat.min_le_left _ _
    have hsub : sub32 s.udma_xfer_len (min s.udma_xfer_len MAX_XFER_LEN) =
        s.udma_xfer_len - min s.udma_xfer_len MAX_XFER_LEN :=
      sub32_eq_sub hchunk hlt
    have hstep := numChunks_step (Nat.one_le_iff_ne_zero.mpr hlen)
    have ecb : (uDMAIntHandler UDMA_MODE_STOP s).1.udma_callback_ptr =
        s.udma_callback_ptr := by
      rw [uDMAIntHandler_stop_rearm hre]
    have elen : (uDMAIntHandler UDMA_MODE_STOP s).1.udma_xfer_len =
        s.udma_xfer_len - min s.udma_xfer_len MAX_XFER_LEN := by
      rw [← hsub, uDMAIntHandler_stop_rearm hre]
    have etr : (uDMAIntHandler UDMA_MODE_STOP s).2 =
        [Event.channelTransferSet s.udma_channel UDMA_MODE_AUTO
           s.udma_xfer_src s.udma_xfer_dst (min s.udma_xfer_len MAX_XFER_LEN),
         Event.channelEnable s.udma_channel,
         Event.channelRequest s.udma_channel] := by
      rw [uDMAIntHandler_stop_rearm hre]
    obtain ⟨harm, ⟨t0, ht0, ht0cb⟩, hcb0, hlk0⟩ :=
      ih (uDMAIntHandler UDMA_MODE_STOP s).1
        (by rw [ecb]; exact hcb)
        (by rw [elen]; omega)
        (by rw [elen]; omega)
    refine ⟨?_, ?_, ?_, ?_⟩
    · rw [iterateHandler_succ_trace, armSizes_append, harm, etr, elen,
        chunkSizes_cons hlen]
      rfl
    · refine ⟨(uDMAIntHandler UDMA_MODE_STOP s).2 ++ t0, ?_, ?_⟩
      · rw [iterateHandler_succ_trace, ← ecb, List.append_assoc, ← ht0]
      · rw [callbackEvents_append, ht0cb, etr]
        rfl
    · rw [iterateHandler_succ_state]
      exact hcb0
    · rw [iterateHandler_succ_state]
      exact hlk0

theorem iterate_clean (j : Nat) :
    ∀ s : DmaState, s.udma_callback_ptr ≠ 0 →
      s.udma_xfer_len < 4294967296 →
      j ≤ numChunks s.udma_xfer_len →
      callbackEvents (iterateHandler j s).2 = [] ∧
      (iterateHandler j s).1.udma_callback_ptr = s.udma_callback_ptr ∧
      (iterateHandler j s).1.udma_xfer_len < 4294967296 ∧
      numChunks (iterateHandler j s).1.udma_xfer_len =
        numChunks s.udma_xfer_len - j := by
  induction j with
  | zero =>
    intro s hcb hlt _
    refine ⟨?_, ?_, ?_, ?_⟩
    · rw [iterateHandler_zero_trace]
      rfl
    · rw [iterateHandler_zero_state]
    · rw [iterateHandler_zero_state]
      exact hlt
    · rw [iterateHandler_zero_state]
      omega
  | succ j ih =>
    intro s hcb hlt hj
    have hlen : s.udma_xfer_len ≠ 0 := by
      intro h0
      rw [h0, numChunks_zero] at hj
      omega
    have hre : ¬(s.udma_callback_ptr ≠ 0 ∧ s.udma_xfer_len = 0) := by
      intro hc
      exact hlen hc.2
    have hchunk : min s.udma_xfer_len MAX_XFER_LEN ≤ s.udma_xfer_len :=
      Nat.min_le_left _ _
    have hsub : sub32 s.udma_xfer_len (min s.udma_xfer_len MAX_XFER_LEN) =
        s.udma_xfer_len - min s.udma_xfer_len MAX_XFER_LEN :=
      sub32_eq_sub hchunk hlt
    have hstep := numChunks_step (Nat.one_le_iff_ne_zero.mpr hlen)
    have ecb : (uDMAIntHandler UDMA_MODE_STOP s).1.udma_callback_ptr =
        s.udma_callback_ptr := by
      rw [uDMAIntHandler_stop_rearm hre]
    have elen : (uDMAIntHandler UDMA_MODE_STOP s).1.udma_xfer_len =
        s.udma_xfer_len - min s.udma_xfer_len MAX_XFER_LEN := by
      rw [← hsub, uDMAIntHandler_stop_rearm hre]
    have ecbe : callbackEvents (uDMAIntHandler UDMA_MODE_STOP s).2 = [] := by
      rw [uDMAIntHandler_stop_rearm hre]
      rfl
    obtain ⟨hcbe, hcbp, hlt', hnum⟩ :=
      ih (uDMAIntHandler UDMA_MODE_STOP s).1
        (by rw [ecb]; exact hcb)
        (by rw [elen]; omega)
        (by rw [elen]; omega)
    refine ⟨?_, ?_, ?_, ?_⟩
    · rw [iterateHandler_succ_trace, callbackEvents_append, hcbe, ecbe]
      rfl
    · rw [iterateHandler_succ_state, hcbp, ecb]
    · rw [iterateHandler_succ_state]
      exact hlt'
    · rw [iterateHandler_succ_state, hnum, elen]
      omega

/-!  Facts about arbitrary handler stimulus sequences: a handler either
leaves the callback pointer alone and fires nothing, or fires exactly one
invocation and nulls the pointer; once the pointer is null no later
handler can fire anything. -/

theorem runCalls_nil_state (s : DmaState) : (runCalls [] s).1 = s := rfl

theorem runCalls_nil_trace (s : DmaState) : (runCalls [] s).2 = [] := rfl

theorem runCalls_cons_state (c : HCall) (cs : List HCall) (s : DmaState) :
    (runCalls (c :: cs) s).1 = (runCalls cs (handlerStep c s).1).1 := rfl

theorem runCalls_cons_trace (c : HCall) (cs : List HCall) (s : DmaState) :
    (runCalls (c :: cs) s).2 =
      (handlerStep c s).2 ++ (runCalls cs (handlerStep c s).1).2 := rfl

theorem handlerStep_callback (c : HCall) (s : DmaState) :
    (callbackEvents (handlerStep c s).2 = [] ∧
      (handlerStep c s).1.udma_callback_ptr = s.udma_callback_ptr) ∨
    ((callbackEvents (handlerStep c s).2).length = 1 ∧
      (handlerStep c s).1.udma_callback_ptr = 0) := by
  obtain ⟨ec, fc, sc, xl, lk, ini, ch, sp, dp, cb⟩ := s
  cases c with
  | intr m =>
    simp only [handlerStep, uDMAIntHandler]
    split_ifs
    · right
      exact ⟨rfl, rfl⟩
    · left
      exact ⟨rfl, rfl⟩
    · right
      exact ⟨rfl, rfl⟩
    · left
      exact ⟨rfl, rfl⟩
  | err e =>
    simp only [handlerStep, uDMAErrorHandler]
    split_ifs
    · right
      exact ⟨rfl, rfl⟩
    · left
      exact ⟨rfl, rfl⟩
    · left
      exact ⟨rfl, rfl⟩

theorem handlerStep_dead (c : HCall) (s : DmaState)
    (h : s.udma_callback_ptr = 0) :
    callbackEvents (handlerStep c s).2 = [] ∧
    (handlerStep c s).1.udma_callback_ptr = 0 := by
  obtain ⟨ec, fc, sc, xl, lk, ini, ch, sp, dp, cb⟩ := s
  simp only at h
  subst h
  cases c with
  | intr m =>
    simp only [handlerStep, uDMAIntHandler]
    split_ifs <;> simp_all <;> rfl
  | err e =>
    simp only [handlerStep, uDMAErrorHandler]
    split_ifs <;> simp_all <;> rfl

theorem runCalls_dead (cs : List HCall) :
    ∀ s : DmaState, s.udma_callback_ptr = 0 →
      callbackEvents (runCalls cs s).2 = [] ∧
      (runCalls cs s).1.udma_callback_ptr = 0 := by
  induction cs with
  | nil =>
    intro s h
    exact ⟨rfl, h⟩
  | cons c cs ih =>
    intro s h
    obtain ⟨h1, h2⟩ := handlerStep_dead c s h
    obtain ⟨h3, h4⟩ := ih (handlerStep c s).1 h2
    refine ⟨?_, ?_⟩
    · rw [runCalls_cons_trace, callbackEvents_append, h1, h3]
      rfl
    · rw [runCalls_cons_state, h4]

theorem runCalls_atMostOne (cs : List HCall) :
    ∀ s : DmaState, (callbackEvents (runCalls cs s).2).length ≤ 1 := by
  induction cs with
  | nil =>
    intro s
    rw [runCalls_nil_trace]
    exact Nat.zero_le 1
  | cons c cs ih =>
    intro s
    rw [runCalls_cons_trace, callbackEvents_append, List.length_append]
    rcases handlerStep_callback c s with ⟨h1, _⟩ | ⟨h1, h2⟩
    · rw [h1]
      simpa using ih (handlerStep c s).1
    · rw [h1, (runCalls_dead cs (handlerStep c s).1 h2).1]
      simp

/-!  Projection lemmas for the session drivers. -/

theorem sessionRun_ret (dst src L chan cb : Nat) (s : DmaState) (k : Nat) :
    (sessionRun dst src L chan cb s k).1 = (dma_memcpy dst src L chan cb s).1 :=
  rfl

theorem sessionRun_state (dst src L chan cb : Nat) (s : DmaState) (k : Nat) :
    (sessionRun dst src L chan cb s k).2.1 =
      (iterateHandler k (dma_memcpy dst src L chan cb s).2.1).1 := rfl

theorem sessionRun_trace (dst src L chan cb : Nat) (s : DmaState) (k : Nat) :
    (sessionRun dst src L chan cb s k).2.2 =
      (dma_memcpy dst src L chan cb s).2.2 ++
        (iterateHandler k (dma_memcpy dst src L chan cb s).2.1).2 := rfl

theorem sessionRunThen_state (dst src L chan cb : Nat) (s : DmaState) (k : Nat)
    (c : HCall) :
    (sessionRunThen dst src L chan cb s k c).2.1 =
      (handlerStep c (sessionRun dst src L chan cb s k).2.1).1 := rfl

theorem sessionRunThen_trace (dst src L chan cb : Nat) (s : DmaState) (k : Nat)
    (c : HCall) :
    (sessionRunThen dst src L chan cb s k c).2.2 =
      (sessionRun dst src L chan cb s k).2.2 ++
        (handlerStep c (sessionRun dst src L chan cb s k).2.1).2 := rfl

/-!  Projection lemmas for a successful `dma_memcpy` call. -/

theorem dma_post_ret (dst src len chan cb : Nat) {s : DmaState}
    (h : s.udma_channel_lock = 0) :
    (dma_memcpy dst src len chan cb s).1 = 0 := by
  rw [dma_memcpy_spec dst src len chan cb h]

theorem dma_post_lock (dst src len chan cb : Nat) {s : DmaState}
    (h : s.udma_channel_lock = 0) :
    (dma_memcpy dst src len chan cb s).2.1.udma_channel_lock = 1 := by
  rw [dma_memcpy_spec dst src len chan cb h]

theorem dma_post_chan (dst src len chan cb : Nat) {s : DmaState}
    (h : s.udma_channel_lock = 0) :
    (dma_memcpy dst src len chan cb s).2.1.udma_channel = chan := by
  rw [dma_memcpy_spec dst src len chan cb h]

theorem dma_post_cb_some (dst src len chan cb : Nat) {s : DmaState}
    (h : s.udma_channel_lock = 0) (hcb : cb ≠ 0) :
    (dma_memcpy dst src len chan cb s).2.1.udma_callback_ptr = cb := by
  rw [dma_memcpy_spec dst src len chan cb h]
  simp [hcb]

theorem dma_post_cb_none (dst src len chan : Nat) {s : DmaState}
    (h : s.udma_channel_lock = 0) :
    (dma_memcpy dst src len chan 0 s).2.1.udma_callback_ptr =
      s.udma_callback_ptr := by
  rw [dma_memcpy_spec dst src len chan 0 h]
  simp

theorem dma_post_len (dst src len chan cb : Nat) {s : DmaState}
    (h : s.udma_channel_lock = 0) :
    (dma_memcpy dst src len chan cb s).2.1.udma_xfer_len =
      mod32 len - min (mod32 len) MAX_XFER_LEN := by
  rw [dma_memcpy_spec dst src len chan cb h]
  exact sub32_eq_sub (Nat.min_le_left _ _) (mod32_lt len)

theorem dma_trace_arm (dst src len chan cb : Nat) {s : DmaState}
    (h : s.udma_channel_lock = 0) :
    armSizes (dma_memcpy dst src len chan cb s).2.2 =
      [min (mod32 len) MAX_XFER_LEN] := by
  rw [dma_memcpy_spec dst src len chan cb h]
  by_cases hi : s.udma_is_initialized = 0 <;> simp [hi, armSizes]

theorem dma_trace_targets (dst src len chan cb : Nat) {s : DmaState}
    (h : s.udma_channel_lock = 0) :
    armTargets (dma_memcpy dst src len chan cb s).2.2 =
      [(chan ||| UDMA_PRI_SELECT, UDMA_MODE_AUTO)] := by
  rw [dma_memcpy_spec dst src len chan cb h]
  by_cases hi : s.udma_is_initialized = 0 <;> simp [hi, armTargets]

theorem dma_trace_cbe (dst src len chan cb : Nat) {s : DmaState}
    (h : s.udma_channel_lock = 0) :
    callbackEvents (dma_memcpy dst src len chan cb s).2.2 = [] := by
  rw [dma_memcpy_spec dst src len chan cb h]
  by_cases hi : s.udma_is_initialized = 0 <;> simp [hi, callbackEvents]

theorem dma_trace_enable (dst src len chan cb : Nat) {s : DmaState}
    (h : s.udma_channel_lock = 0) :
    Event.channelEnable chan ∈ (dma_memcpy dst src len chan cb s).2.2 := by
  rw [dma_memcpy_spec dst src len chan cb h]
  by_cases hi : s.udma_is_initialized = 0 <;> simp [hi]

theorem dma_trace_request (dst src len chan cb : Nat) {s : DmaState}
    (h : s.udma_channel_lock = 0) :
    Event.channelRequest chan ∈ (dma_memcpy dst src len chan cb s).2.2 := by
  rw [dma_memcpy_spec dst src len chan cb h]
  by_cases hi : s.udma_is_initialized = 0 <;> simp [hi]

/-!  The claims. -/

/-- Claim C2: a `dma_memcpy` call made while the channel lock is already
held (`udma_channel_lock = 1`) returns the busy code 1 immediately, performs
no hardware action, and leaves the whole state — in particular
`udma_xfer_src`, `udma_xfer_dst`, `udma_xfer_len`, `udma_callback_ptr` and
`udma_channel` — unchanged. -/
theorem C2_busy_no_mutation (dst src len chan cb : Nat) (s : DmaState)
    (h : s.udma_channel_lock = 1) :
    dma_memcpy dst src len chan cb s = (1, s, []) := by
  simp [dma_memcpy, h]

/-- Witness for Claim C2 at a concrete locked state. -/
theorem C2_busy_no_mutation_witness :
    dma_memcpy 1 2 3 4 5 { initState with udma_channel_lock := 1 } =
      (1, { initState with udma_channel_lock := 1 }, []) :=
  C2_busy_no_mutation 1 2 3 4 5 { initState with udma_channel_lock := 1 } rfl

/-- Claim C4: after any terminal handler event — completion with remaining
length 0, completion with an abnormal stop mode, or a pending controller
error — the lock is 0 and the callback pointer is NULL, on all three
terminal paths. -/
theorem C4_terminal_releases (m e : Nat) (s : DmaState) :
    (m = UDMA_MODE_STOP ∧ s.udma_xfer_len = 0 →
      (uDMAIntHandler m s).1.udma_channel_lock = 0 ∧
      (uDMAIntHandler m s).1.udma_callback_ptr = 0) ∧
    (m ≠ UDMA_MODE_STOP →
      (uDMAIntHandler m s).1.udma_channel_lock = 0 ∧
      (uDMAIntHandler m s).1.udma_callback_ptr = 0) ∧
    (e ≠ 0 →
      (uDMAErrorHandler e s).1.udma_channel_lock = 0 ∧
      (uDMAErrorHandler e s).1.udma_callback_ptr = 0) := by
  obtain ⟨ec, fc, sc, xl, lk, ini, ch, sp, dp, cb⟩ := s
  refine ⟨?_, ?_, ?_⟩
  · rintro ⟨hm, hlen⟩
    subst hm
    simp only at hlen
    subst hlen
    by_cases hcb : cb = 0 <;> simp [uDMAIntHandler, hcb]
  · intro hm
    by_cases hcb : cb = 0 <;> simp [uDMAIntHandler, hm, hcb]
  · intro he
    by_cases hcb : cb = 0 <;> simp [uDMAErrorHandler, he, hcb]

/-- Witness for Claim C4: all three terminal paths at a concrete state with
a pending callback. -/
theorem C4_terminal_releases_witness :
    ((uDMAIntHandler UDMA_MODE_STOP
        { initState with udma_callback_ptr := 7 }).1.udma_channel_lock = 0 ∧
     (uDMAIntHandler UDMA_MODE_STOP
        { initState with udma_callback_ptr := 7 }).1.udma_callback_ptr = 0) ∧
    ((uDMAIntHandler 5
        { initState with udma_callback_ptr := 7 }).1.udma_channel_lock = 0 ∧
     (uDMAIntHandler 5
        { initState with udma_callback_ptr := 7 }).1.udma_callback_ptr = 0) ∧
    ((uDMAErrorHandler 1
        { initState with udma_callback_ptr := 7 }).1.udma_channel_lock = 0 ∧
     (uDMAErrorHandler 1
        { initState with udma_callback_ptr := 7 }).1.udma_callback_ptr = 0) :=
  ⟨(C4_terminal_releases UDMA_MODE_STOP 1
      { initState with udma_callback_ptr := 7 }).1 ⟨rfl, rfl⟩,
   (C4_terminal_releases 5 1
      { initState with udma_callback_ptr := 7 }).2.1 (by decide),
   (C4_terminal_releases UDMA_MODE_STOP 1
      { initState with udma_callback_ptr := 7 }).2.2 (by decide)⟩

/-- Claim C6: both interrupt handlers release the channel lock
unconditionally at exit — for every reported mode (including a re-armed
continuation chunk) and every reported error status (including none
pending). -/
theorem C6_unconditional_release (m e : Nat) (s : DmaState) :
    (uDMAIntHandler m s).1.udma_channel_lock = 0 ∧
    (uDMAErrorHandler e s).1.udma_channel_lock = 0 := by
  obtain ⟨ec, fc, sc, xl, lk, ini, ch, sp, dp, cb⟩ := s
  constructor
  · simp only [uDMAIntHandler]
    split_ifs <;> rfl
  · simp only [uDMAErrorHandler]
    split_ifs <;> rfl

/-- Claim C7: the first chunk is armed by the initiator on
`chan ||| UDMA_PRI_SELECT` in auto mode, while every continuation chunk
re-armed by the completion handler is armed on the plain stored channel id
in the same auto mode. -/
theorem C7_arm_targets (dst src len chan cb m : Nat) (s s2 : DmaState)
    (hlock : s.udma_channel_lock = 0) (hm : m = UDMA_MODE_STOP)
    (hre : ¬(s2.udma_callback_ptr ≠ 0 ∧ s2.udma_xfer_len = 0)) :
    armTargets (dma_memcpy dst src len chan cb s).2.2 =
      [(chan ||| UDMA_PRI_SELECT, UDMA_MODE_AUTO)] ∧
    armTargets (uDMAIntHandler m s2).2 = [(s2.udma_channel, UDMA_MODE_AUTO)] := by
  subst hm
  refine ⟨dma_trace_targets dst src len chan cb hlock, ?_⟩
  rw [uDMAIntHandler_stop_rearm hre]
  rfl

/-- Witness for Claim C7 at a concrete mid-transfer state. -/
theorem C7_arm_targets_witness :
    armTargets (dma_memcpy 100 200 2500 5 7 initState).2.2 =
      [(5 ||| UDMA_PRI_SELECT, UDMA_MODE_AUTO)] ∧
    armTargets (uDMAIntHandler UDMA_MODE_STOP
        { initState with udma_channel := 5, udma_xfer_len := 1476,
                         udma_callback_ptr := 7 }).2 =
      [(5, UDMA_MODE_AUTO)] :=
  C7_arm_targets 100 200 2500 5 7 UDMA_MODE_STOP initState
    { initState with udma_channel := 5, udma_xfer_len := 1476,
                     udma_callback_ptr := 7 }
    rfl rfl (by decide)

/-- Claim C8: calling `dma_memcpy` with a NULL callback leaves
`udma_callback_ptr` unchanged rather than clearing it, so a stale non-null
callback from an earlier session is observed and invoked by the completion
handler of the new session. -/
theorem C8_stale_callback (dst src L chan : Nat) (s : DmaState)
    (hlock : s.udma_channel_lock = 0) :
    (dma_memcpy dst src L chan 0 s).2.1.udma_callback_ptr =
      s.udma_callback_ptr ∧
    (L ≤ MAX_XFER_LEN → s.udma_callback_ptr ≠ 0 →
      callbackEvents (uDMAIntHandler UDMA_MODE_STOP
          (dma_memcpy dst src L chan 0 s).2.1).2 =
        [(s.udma_callback_ptr, 0)]) := by
  have e1 := dma_post_cb_none dst src L chan hlock
  refine ⟨e1, ?_⟩
  intro hL hcb
  have e2 : (dma_memcpy dst src L chan 0 s).2.1.udma_xfer_len = 0 := by
    rw [dma_post_len dst src L chan 0 hlock,
      mod32_eq_of_lt (by simp only [MAX_XFER_LEN] at hL; omega)]
    simp only [MAX_XFER_LEN] at hL ⊢
    omega
  rw [uDMAIntHandler_stop_final (by rw [e1]; exact hcb) e2, e1]
  rfl

/-- Witness for Claim C8: a stale callback address 9 left over in the state
is kept by a NULL-callback call and then invoked with code 0. -/
theorem C8_stale_callback_witness :
    (dma_memcpy 100 200 500 5 0
        { initState with udma_callback_ptr := 9 }).2.1.udma_callback_ptr =
      ({ initState with udma_callback_ptr := 9 } : DmaState).udma_callback_ptr ∧
    ((500 : Nat) ≤ MAX_XFER_LEN →
      ({ initState with udma_callback_ptr := 9 } : DmaState).udma_callback_ptr ≠ 0 →
      callbackEvents (uDMAIntHandler UDMA_MODE_STOP
          (dma_memcpy 100 200 500 5 0
            { initState with udma_callback_ptr := 9 }).2.1).2 =
        [(({ initState with udma_callback_ptr := 9 } : DmaState).udma_callback_ptr,
          0)]) :=
  C8_stale_callback 100 200 500 5 { initState with udma_callback_ptr := 9 } rfl

/-- Claim C9: a zero-length request with the lock free still acquires the
lock, arms one hardware transfer of length 0 (and enables and requests the
channel), leaves `udma_xfer_len` at 0, and returns success. -/
theorem C9_zero_length (dst src chan cb : Nat) (s : DmaState)
    (hlock : s.udma_channel_lock = 0) :
    (dma_memcpy dst src 0 chan cb s).1 = 0 ∧
    (dma_memcpy dst src 0 chan cb s).2.1.udma_channel_lock = 1 ∧
    (dma_memcpy dst src 0 chan cb s).2.1.udma_xfer_len = 0 ∧
    armSizes (dma_memcpy dst src 0 chan cb s).2.2 = [0] ∧
    Event.channelEnable chan ∈ (dma_memcpy dst src 0 chan cb s).2.2 ∧
    Event.channelRequest chan ∈ (dma_memcpy dst src 0 chan cb s).2.2 := by
  refine ⟨dma_post_ret dst src 0 chan cb hlock,
    dma_post_lock dst src 0 chan cb hlock, ?_, ?_,
    dma_trace_enable dst src 0 chan cb hlock,
    dma_trace_request dst src 0 chan cb hlock⟩
  · rw [dma_post_len dst src 0 chan cb hlock]
    decide
  · rw [dma_trace_arm dst src 0 chan cb hlock]
    decide

/-- Witness for Claim C9 at concrete arguments. -/
theorem C9_zero_length_witness :
    (dma_memcpy 100 200 0 5 7 initState).1 = 0 ∧
    (dma_memcpy 100 200 0 5 7 initState).2.1.udma_channel_lock = 1 ∧
    (dma_memcpy 100 200 0 5 7 initState).2.1.udma_xfer_len = 0 ∧
    armSizes (dma_memcpy 100 200 0 5 7 initState).2.2 = [0] ∧
    Event.channelEnable 5 ∈ (dma_memcpy 100 200 0 5 7 initState).2.2 ∧
    Event.channelRequest 5 ∈ (dma_memcpy 100 200 0 5 7 initState).2.2 :=
  C9_zero_length 100 200 5 7 initState rfl

/-- Claim C10: the amount subtracted from `udma_xfer_len` is always
`min(udma_xfer_len, MAX_XFER_LEN)`, which is at most its current value, so
the two's-complement subtraction in both the initiator and the completion
handler is exact — `udma_xfer_len` never wraps modulo 2^32 and is
non-increasing under completion interrupts. -/
theorem C10_no_underflow (dst src len chan cb m : Nat) (s s2 : DmaState)
    (hlock : s.udma_channel_lock = 0) (hlen : s2.udma_xfer_len < 4294967296) :
    (dma_memcpy dst src len chan cb s).2.1.udma_xfer_len +
        min (mod32 len) MAX_XFER_LEN = mod32 len ∧
    (dma_memcpy dst src len chan cb s).2.1.udma_xfer_len ≤ mod32 len ∧
    ((uDMAIntHandler m s2).1.udma_xfer_len = s2.udma_xfer_len ∨
      (uDMAIntHandler m s2).1.udma_xfer_len +
          min s2.udma_xfer_len MAX_XFER_LEN = s2.udma_xfer_len) ∧
    (uDMAIntHandler m s2).1.udma_xfer_len ≤ s2.udma_xfer_len := by
  have h1 := dma_post_len dst src len chan cb hlock
  have hmin : min (mod32 len) MAX_XFER_LEN ≤ mod32 len := Nat.min_le_left _ _
  have hmin2 : min s2.udma_xfer_len MAX_XFER_LEN ≤ s2.udma_xfer_len :=
    Nat.min_le_left _ _
  have h2 : (uDMAIntHandler m s2).1.udma_xfer_len = s2.udma_xfer_len ∨
      (uDMAIntHandler m s2).1.udma_xfer_len =
        s2.udma_xfer_len - min s2.udma_xfer_len MAX_XFER_LEN := by
    by_cases hm : m = UDMA_MODE_STOP
    · subst hm
      by_cases hc : s2.udma_callback_ptr ≠ 0 ∧ s2.udma_xfer_len = 0
      · left
        rw [uDMAIntHandler_stop_final hc.1 hc.2]
      · right
        rw [← sub32_eq_sub hmin2 hlen, uDMAIntHandler_stop_rearm hc]
    · left
      obtain ⟨ec, fc, sc, xl, lk, ini, ch, sp, dp, cb⟩ := s2
      simp only [uDMAIntHandler]
      rw [if_neg hm]
      split_ifs <;> rfl
  refine ⟨by omega, by omega, ?_, by rcases h2 with h2 | h2 <;> omega⟩
  rcases h2 with h2 | h2
  · exact Or.inl h2
  · right
    omega

/-- Witness for Claim C10 at concrete arguments mid-transfer. -/
theorem C10_no_underflow_witness :
    (dma_memcpy 100 200 2500 5 7 initState).2.1.udma_xfer_len +
        min (mod32 2500) MAX_XFER_LEN = mod32 2500 ∧
    (dma_memcpy 100 200 2500 5 7 initState).2.1.udma_xfer_len ≤ mod32 2500 ∧
    ((uDMAIntHandler UDMA_MODE_STOP
          { initState with udma_xfer_len := 1476,
                           udma_callback_ptr := 7 }).1.udma_xfer_len =
        ({ initState with udma_xfer_len := 1476,
                          udma_callback_ptr := 7 } : DmaState).udma_xfer_len ∨
      (uDMAIntHandler UDMA_MODE_STOP
          { initState with udma_xfer_len := 1476,
                           udma_callback_ptr := 7 }).1.udma_xfer_len +
          min ({ initState with udma_xfer_len := 1476,
                                udma_callback_ptr := 7 } : DmaState).udma_xfer_len
            MAX_XFER_LEN =
        ({ initState with udma_xfer_len := 1476,
                          udma_callback_ptr := 7 } : DmaState).udma_xfer_len) ∧
    (uDMAIntHandler UDMA_MODE_STOP
        { initState with udma_xfer_len := 1476,
                         udma_callback_ptr := 7 }).1.udma_xfer_len ≤
      ({ initState with udma_xfer_len := 1476,
                        udma_callback_ptr := 7 } : DmaState).udma_xfer_len :=
  C10_no_underflow 100 200 2500 5 7 UDMA_MODE_STOP initState
    { initState with udma_xfer_len := 1476, udma_callback_ptr := 7 }
    rfl (by decide)

/-- Claim C1 (amended: the total length is at least one word and the
callback is non-null; for `L = 0` the code arms one zero-length chunk, and
with a null callback the handler arms an extra zero-length chunk, so the
chunk count differs from `ceil(L / 1024)` in those two cases): a session of
`L` words under clean-stop completions arms chunks of sizes
`min(remaining, 1024)` in order, queues exactly `ceil(L / 1024)` chunks,
and fires the callback exactly once, with code 0, after the last chunk;
concretely `L = 2500` yields chunk sizes 1024, 1024, 452 with three arm
events and one callback invocation with code 0 after the third. -/
theorem C1_chunk_sequence (dst src L chan cb : Nat) (s : DmaState)
    (hlock : s.udma_channel_lock = 0) (hL : 1 ≤ L) (hlt : L < 4294967296)
    (hcb : cb ≠ 0) :
    (sessionRun dst src L chan cb s (numChunks L)).1 = 0 ∧
    armSizes (sessionRun dst src L chan cb s (numChunks L)).2.2 =
      chunkSizes L ∧
    (armSizes (sessionRun dst src L chan cb s (numChunks L)).2.2).length =
      numChunks L ∧
    (∃ t0, (sessionRun dst src L chan cb s (numChunks L)).2.2 =
        t0 ++ [Event.callbackInvoke cb 0] ∧ callbackEvents t0 = []) ∧
    (sessionRun dst src L chan cb s (numChunks L)).2.1.udma_callback_ptr = 0 ∧
    (sessionRun dst src L chan cb s (numChunks L)).2.1.udma_channel_lock = 0 ∧
    armSizes (sessionRun 100 200 2500 5 7 initState 3).2.2 =
      [1024, 1024, 452] ∧
    callbackEvents (sessionRun 100 200 2500 5 7 initState 3).2.2 = [(7, 0)] ∧
    numChunks 2500 = 3 := by
  have hm : mod32 L = L := mod32_eq_of_lt hlt
  have e1 : (dma_memcpy dst src L chan cb s).2.1.udma_callback_ptr = cb :=
    dma_post_cb_some dst src L chan cb hlock hcb
  have e2 : (dma_memcpy dst src L chan cb s).2.1.udma_xfer_len =
      L - min L MAX_XFER_LEN := by
    rw [dma_post_len dst src L chan cb hlock, hm]
  have hL0 : L ≠ 0 := by omega
  have hstep : numChunks (L - min L MAX_XFER_LEN) = numChunks L - 1 :=
    numChunks_step hL
  have hpos : 1 ≤ numChunks L := numChunks_pos hL
  have hk : numChunks L = (numChunks L - 1) + 1 := by omega
  obtain ⟨harm, ⟨t0, ht0, ht0cb⟩, hcb0, hlk0⟩ :=
    iterate_success (numChunks L - 1) (dma_memcpy dst src L chan cb s).2.1
      (by rw [e1]; exact hcb)
      (by rw [e2]; omega)
      (by rw [e2, hstep])
  rw [e1] at ht0
  have Harm : armSizes (sessionRun dst src L chan cb s (numChunks L)).2.2 =
      chunkSizes L := by
    rw [sessionRun_trace, armSizes_append, dma_trace_arm dst src L chan cb
      hlock, hm, hk, harm, e2, chunkSizes_cons hL0]
    rfl
  refine ⟨?_, Harm, ?_, ?_, ?_, ?_, by decide, by decide, by decide⟩
  · rw [sessionRun_ret]
    exact dma_post_ret dst src L chan cb hlock
  · rw [Harm, chunkSizes_length]
  · refine ⟨(dma_memcpy dst src L chan cb s).2.2 ++ t0, ?_, ?_⟩
    · rw [sessionRun_trace, hk, ht0, List.append_assoc]
    · rw [callbackEvents_append, dma_trace_cbe dst src L chan cb hlock, ht0cb]
      rfl
  · rw [sessionRun_state, hk]
    exact hcb0
  · rw [sessionRun_state, hk]
    exact hlk0

/-- Witness for Claim C1 at the concrete scenario of the specification:
`L = 2500`, channel 5, callback address 7, from the initial state. -/
theorem C1_chunk_sequence_witness :
    (sessionRun 100 200 2500 5 7 initState (numChunks 2500)).1 = 0 ∧
    armSizes (sessionRun 100 200 2500 5 7 initState (numChunks 2500)).2.2 =
      chunkSizes 2500 ∧
    (armSizes
        (sessionRun 100 200 2500 5 7 initState (numChunks 2500)).2.2).length =
      numChunks 2500 ∧
    (∃ t0, (sessionRun 100 200 2500 5 7 initState (numChunks 2500)).2.2 =
        t0 ++ [Event.callbackInvoke 7 0] ∧ callbackEvents t0 = []) ∧
    (sessionRun 100 200 2500 5 7 initState
        (numChunks 2500)).2.1.udma_callback_ptr = 0 ∧
    (sessionRun 100 200 2500 5 7 initState
        (numChunks 2500)).2.1.udma_channel_lock = 0 ∧
    armSizes (sessionRun 100 200 2500 5 7 initState 3).2.2 =
      [1024, 1024, 452] ∧
    callbackEvents (sessionRun 100 200 2500 5 7 initState 3).2.2 = [(7, 0)] ∧
    numChunks 2500 = 3 :=
  C1_chunk_sequence 100 200 2500 5 7 initState rfl (by decide) (by decide)
    (by decide)

/-- Counterexample for Claim C1 as stated: it quantifies over every total
word count `L`, but for `L = 0` the code arms one zero-length chunk where
`ceil(0 / 1024) = 0` chunks are claimed, and for a null callback
(`cb = 0`, allowed by the claim's parenthetical) an `L = 1024` session
arms two chunks — the real one and a spurious zero-length continuation —
where `ceil(1024 / 1024) = 1` chunk is claimed. -/
theorem C1_chunk_sequence_cex :
    (armSizes (sessionRun 100 200 0 5 7 initState 1).2.2).length = 1 ∧
    numChunks 0 = 0 ∧
    (armSizes (sessionRun 100 200 1024 5 0 initState 1).2.2).length = 2 ∧
    numChunks 1024 = 1 := by
  decide

/-- Claim C3 (amended: a session is delimited by a terminal handler event —
final clean completion, abnormal-stop completion, or pending controller
error — not by the release of the lock, which the handlers release at every
exit, already after the first chunk of a multi-chunk transfer; the stored
callback is assumed non-null, the claim being vacuous otherwise): across
one successful `dma_memcpy` call followed by clean-stop completions and one
terminal event, the callback is invoked exactly once — with code 0 from the
completion handler on success, code 1 from the completion handler on an
abnormal stop, or code 2 from the error handler — the callback pointer is
NULL immediately afterwards, and no sequence of handler stimuli whatsoever
can make it fire twice. -/
theorem C3_callback_exactly_once (dst src L chan cb j m e : Nat)
    (s : DmaState) (hlock : s.udma_channel_lock = 0) (hL : 1 ≤ L)
    (hlt : L < 4294967296) (hcb : cb ≠ 0) (hj : j + 1 ≤ numChunks L)
    (hm : m ≠ UDMA_MODE_STOP) (he : e ≠ 0) :
    (callbackEvents (sessionRun dst src L chan cb s (numChunks L)).2.2 =
        [(cb, 0)] ∧
      (sessionRun dst src L chan cb s
          (numChunks L)).2.1.udma_callback_ptr = 0) ∧
    (callbackEvents
        (sessionRunThen dst src L chan cb s j (HCall.intr m)).2.2 =
        [(cb, 1)] ∧
      (sessionRunThen dst src L chan cb s j
          (HCall.intr m)).2.1.udma_callback_ptr = 0) ∧
    (callbackEvents
        (sessionRunThen dst src L chan cb s j (HCall.err e)).2.2 =
        [(cb, 2)] ∧
      (sessionRunThen dst src L chan cb s j
          (HCall.err e)).2.1.udma_callback_ptr = 0) ∧
    (∀ cs : List HCall,
      (callbackEvents ((dma_memcpy dst src L chan cb s).2.2 ++
          (runCalls cs (dma_memcpy dst src L chan cb s).2.1).2)).length ≤ 1) := by
  have e1 : (dma_memcpy dst src L chan cb s).2.1.udma_callback_ptr = cb :=
    dma_post_cb_some dst src L chan cb hlock hcb
  have e2 : (dma_memcpy dst src L chan cb s).2.1.udma_xfer_len =
      L - min L MAX_XFER_LEN := by
    rw [dma_post_len dst src L chan cb hlock, mod32_eq_of_lt hlt]
  have hstep : numChunks (L - min L MAX_XFER_LEN) = numChunks L - 1 :=
    numChunks_step hL
  have hpos : 1 ≤ numChunks L := numChunks_pos hL
  have hk : numChunks L = (numChunks L - 1) + 1 := by omega
  have hcbe0 := dma_trace_cbe dst src L chan cb hlock
  obtain ⟨hcj, hpj, _, _⟩ :=
    iterate_clean j (dma_memcpy dst src L chan cb s).2.1
      (by rw [e1]; exact hcb)
      (by rw [e2]; omega)
      (by rw [e2, hstep]; omega)
  rw [e1] at hpj
  refine ⟨?_, ?_, ?_, ?_⟩
  · obtain ⟨harm, ⟨t0, ht0, ht0cb⟩, hcb0, hlk0⟩ :=
      iterate_success (numChunks L - 1) (dma_memcpy dst src L chan cb s).2.1
        (by rw [e1]; exact hcb)
        (by rw [e2]; omega)
        (by rw [e2, hstep])
    rw [e1] at ht0
    constructor
    · rw [sessionRun_trace, callbackEvents_append, hcbe0, hk, ht0,
        callbackEvents_append, ht0cb]
      rfl
    · rw [sessionRun_state, hk]
      exact hcb0
  · have hfail := uDMAIntHandler_fail hm
      (s := (iterateHandler j (dma_memcpy dst src L chan cb s).2.1).1)
      (by rw [hpj]; exact hcb)
    constructor
    · rw [sessionRunThen_trace, callbackEvents_append, sessionRun_trace,
        callbackEvents_append, hcbe0, hcj, sessionRun_state]
      show ([] ++ [] : List (Nat × Nat)) ++
        callbackEvents (uDMAIntHandler m
          (iterateHandler j (dma_memcpy dst src L chan cb s).2.1).1).2 = _
      rw [hfail, hpj]
      rfl
    · rw [sessionRunThen_state, sessionRun_state]
      show (uDMAIntHandler m
        (iterateHandler j
          (dma_memcpy dst src L chan cb s).2.1).1).1.udma_callback_ptr = 0
      rw [hfail]
  · have herr := uDMAErrorHandler_pend he
      (s := (iterateHandler j (dma_memcpy dst src L chan cb s).2.1).1)
      (by rw [hpj]; exact hcb)
    constructor
    · rw [sessionRunThen_trace, callbackEvents_append, sessionRun_trace,
        callbackEvents_append, hcbe0, hcj, sessionRun_state]
      show ([] ++ [] : List (Nat × Nat)) ++
        callbackEvents (uDMAErrorHandler e
          (iterateHandler j (dma_memcpy dst src L chan cb s).2.1).1).2 = _
      rw [herr, hpj]
      rfl
    · rw [sessionRunThen_state, sessionRun_state]
      show (uDMAErrorHandler e
        (iterateHandler j
          (dma_memcpy dst src L chan cb s).2.1).1).1.udma_callback_ptr = 0
      rw [herr]
  · intro cs
    rw [callbackEvents_append, hcbe0, List.nil_append]
    exact runCalls_atMostOne cs (dma_memcpy dst src L chan cb s).2.1

/-- Witness for Claim C3 at concrete arguments: a 2500-word session with
callback address 7, one clean completion before the terminal event, an
abnormal mode 3 and an error status 1. -/
theorem C3_callback_exactly_once_witness :
    (callbackEvents (sessionRun 100 200 2500 5 7 initState
        (numChunks 2500)).2.2 = [(7, 0)] ∧
      (sessionRun 100 200 2500 5 7 initState
          (numChunks 2500)).2.1.udma_callback_ptr = 0) ∧
    (callbackEvents
        (sessionRunThen 100 200 2500 5 7 initState 1 (HCall.intr 3)).2.2 =
        [(7, 1)] ∧
      (sessionRunThen 100 200 2500 5 7 initState 1
          (HCall.intr 3)).2.1.udma_callback_ptr = 0) ∧
    (callbackEvents
        (sessionRunThen 100 200 2500 5 7 initState 1 (HCall.err 1)).2.2 =
        [(7, 2)] ∧
      (sessionRunThen 100 200 2500 5 7 initState 1
          (HCall.err 1)).2.1.udma_callback_ptr = 0) ∧
    (∀ cs : List HCall,
      (callbackEvents ((dma_memcpy 100 200 2500 5 7 initState).2.2 ++
          (runCalls cs (dma_memcpy 100 200 2500 5 7 initState).2.1).2)).length
        ≤ 1) :=
  C3_callback_exactly_once 100 200 2500 5 7 1 3 1 initState rfl (by decide)
    (by decide) (by decide) (by decide) (by decide) (by decide)

/-- Counterexample for Claim C3 as stated: it delimits a session as "one
successful `dma_memcpy` call followed by handler invocations until the lock
is released", but the completion handler releases the lock at every exit —
after the first clean completion of a 2048-word transfer the lock is
already 0 while the callback has fired zero times (and is still stored), so
within that session boundary the callback is not invoked exactly once. -/
theorem C3_callback_exactly_once_cex :
    (sessionRun 100 200 2048 5 7 initState 1).2.1.udma_channel_lock = 0 ∧
    (sessionRun 100 200 2048 5 7 initState 1).2.1.udma_callback_ptr = 7 ∧
    callbackEvents (sessionRun 100 200 2048 5 7 initState 1).2.2 = [] := by
  decide

/-- Claim C5 (amended: each operation leaves each diagnostic counter
unchanged or replaces it by its successor modulo 2^32 — the counters are
`uint32_t`, so the increment at 2^32 − 1 wraps to 0 and the counters are
non-decreasing only below that bound — and no operation ever consults a
counter: the return value, the hardware/callback trace, and every
non-counter field of the resulting state are unchanged when the three
counters are replaced by arbitrary values). -/
theorem C5_counters (dst src len chan cb m e ev fv cv : Nat) (s : DmaState) :
    ((init_dma_memcpy chan s).2.1.udma_error_cnt = s.udma_error_cnt ∧
     (init_dma_memcpy chan s).2.1.udma_xfer_fail_cnt = s.udma_xfer_fail_cnt ∧
     (init_dma_memcpy chan s).2.1.udma_xfer_succ_cnt = s.udma_xfer_succ_cnt) ∧
    ((dma_memcpy dst src len chan cb s).2.1.udma_error_cnt =
        s.udma_error_cnt ∧
     (dma_memcpy dst src len chan cb s).2.1.udma_xfer_fail_cnt =
        s.udma_xfer_fail_cnt ∧
     (dma_memcpy dst src len chan cb s).2.1.udma_xfer_succ_cnt =
        s.udma_xfer_succ_cnt) ∧
    ((uDMAIntHandler m s).1.udma_error_cnt = s.udma_error_cnt ∧
     ((uDMAIntHandler m s).1.udma_xfer_fail_cnt = s.udma_xfer_fail_cnt ∨
      (uDMAIntHandler m s).1.udma_xfer_fail_cnt =
        mod32 (s.udma_xfer_fail_cnt + 1)) ∧
     ((uDMAIntHandler m s).1.udma_xfer_succ_cnt = s.udma_xfer_succ_cnt ∨
      (uDMAIntHandler m s).1.udma_xfer_succ_cnt =
        mod32 (s.udma_xfer_succ_cnt + 1))) ∧
    (((uDMAErrorHandler e s).1.udma_error_cnt = s.udma_error_cnt ∨
      (uDMAErrorHandler e s).1.udma_error_cnt =
        mod32 (s.udma_error_cnt + 1)) ∧
     (uDMAErrorHandler e s).1.udma_xfer_fail_cnt = s.udma_xfer_fail_cnt ∧
     (uDMAErrorHandler e s).1.udma_xfer_succ_cnt = s.udma_xfer_succ_cnt) ∧
    ((init_dma_memcpy chan (withCounters s ev fv cv)).1 =
        (init_dma_memcpy chan s).1 ∧
     (init_dma_memcpy chan (withCounters s ev fv cv)).2.2 =
        (init_dma_memcpy chan s).2.2 ∧
     withCounters (init_dma_memcpy chan (withCounters s ev fv cv)).2.1 0 0 0 =
        withCounters (init_dma_memcpy chan s).2.1 0 0 0) ∧
    ((dma_memcpy dst src len chan cb (withCounters s ev fv cv)).1 =
        (dma_memcpy dst src len chan cb s).1 ∧
     (dma_memcpy dst src len chan cb (withCounters s ev fv cv)).2.2 =
        (dma_memcpy dst src len chan cb s).2.2 ∧
     withCounters
        (dma_memcpy dst src len chan cb (withCounters s ev fv cv)).2.1 0 0 0 =
        withCounters (dma_memcpy dst src len chan cb s).2.1 0 0 0) ∧
    ((uDMAIntHandler m (withCounters s ev fv cv)).2 = (uDMAIntHandler m s).2 ∧
     withCounters (uDMAIntHandler m (withCounters s ev fv cv)).1 0 0 0 =
        withCounters (uDMAIntHandler m s).1 0 0 0) ∧
    ((uDMAErrorHandler e (withCounters s ev fv cv)).2 =
        (uDMAErrorHandler e s).2 ∧
     withCounters (uDMAErrorHandler e (withCounters s ev fv cv)).1 0 0 0 =
        withCounters (uDMAErrorHandler e s).1 0 0 0) := by
  obtain ⟨ec, fc, sc, xl, lk, ini, ch, sp, dp, cbp⟩ := s
  refine ⟨⟨rfl, rfl, rfl⟩, ?_, ?_, ?_, ⟨rfl, rfl, rfl⟩, ?_, ?_, ?_⟩
  · simp only [dma_memcpy, init_dma_memcpy]
    split_ifs <;> exact ⟨rfl, rfl, rfl⟩
  · simp only [uDMAIntHandler]
    split_ifs <;>
      first
      | exact ⟨rfl, Or.inl rfl, Or.inr rfl⟩
      | exact ⟨rfl, Or.inr rfl, Or.inl rfl⟩
  · simp only [uDMAErrorHandler]
    split_ifs <;>
      first
      | exact ⟨Or.inr rfl, rfl, rfl⟩
      | exact ⟨Or.inl rfl, rfl, rfl⟩
  · simp only [dma_memcpy, init_dma_memcpy, withCounters]
    split_ifs <;> exact ⟨rfl, rfl, rfl⟩
  · simp only [uDMAIntHandler, withCounters]
    split_ifs <;> exact ⟨rfl, rfl⟩
  · simp only [uDMAErrorHandler, withCounters]
    split_ifs <;> exact ⟨rfl, rfl⟩

/-- Counterexample for Claim C5 as stated: the counters are `uint32_t` and
the increment wraps, so they are not monotonically non-decreasing across
every operation — a clean-stop completion at success count 2^32 − 1 resets
the count to 0. -/
theorem C5_counters_cex :
    (uDMAIntHandler UDMA_MODE_STOP
        { initState with udma_xfer_succ_cnt := 4294967295 }).1.udma_xfer_succ_cnt
      <
      ({ initState with
          udma_xfer_succ_cnt := 4294967295 } : DmaState).udma_xfer_succ_cnt := by
  decide

end DmaMemcpy
